import Mathlib

/-!
Verification of the bond price calculator
(src/bond_pricer.py and src/bond_dashboard.py).

Shallow embedding conventions:
* Calendar dates become integer day numbers; Python's
  `(maturity_date - today).days` is the integer difference `maturity - today`.
* Double-precision floats become exact rationals (`ℚ`); the float literal
  `365.25` is exactly representable and is embedded as the rational `365.25`.
* The two source files contain line-for-line identical pricing cores
  (`calculate_bond_price`), except that `bond_pricer.py` additionally parses
  the maturity date from a string and that at `1 + periodic_ytm = 0` the
  pure-Python exponentiation raises `ZeroDivisionError` while the numpy
  variant yields a non-finite value.  We embed the shared core once; the
  raising/non-finite case is the explicit `raised` outcome.
* Both sources read the reference date via `date.today()` inside the
  function.  The clock read is embedded by explicit state passing: `today`
  is the value the clock returned.
* Both sources report validation failures by printing an error message
  (`print` / `st.error`) and returning `None`.  The printed message is kept
  in the `validationFailure` constructor; `printed_output` recovers the
  user-facing output of a call and `EngineResult.returnedValue` its Python
  return value (`some p` for a float `p`, `none` for `None`).
-/

namespace BondCalc

/-- Outcome of one call to `calculate_bond_price`:
a returned price, a validation failure (with the printed error message),
or an uncaught `ZeroDivisionError`. -/
inductive EngineResult where
  | ok (price : ℚ)
  | validationFailure (msg : String)
  | raised
deriving DecidableEq

/-- Message printed by `st.error` in src/bond_dashboard.py line 48
(src/bond_pricer.py line 55 differs only in the final sentence's wording). -/
def pastMaturityMsg : String :=
  "Error: Maturity date cannot be in the past. Please select a future date."

/-- Message printed by `st.error` in src/bond_dashboard.py line 53. -/
def invalidFrequencyMsg : String :=
  "Error: Coupon frequency must be a positive integer."

/-- src/bond_dashboard.py line 57: `(maturity_date - today).days / 365.25`. -/
def years_to_maturity (today maturity : ℤ) : ℚ :=
  ((maturity - today : ℤ) : ℚ) / (365.25 : ℚ)

/-- src/bond_dashboard.py line 60:
`np.ceil(years_to_maturity * coupon_frequency_per_year)`. -/
def num_periods (today maturity freq : ℤ) : ℤ :=
  ⌈years_to_maturity today maturity * (freq : ℚ)⌉

/-- src/bond_dashboard.py line 68:
`(face_value * coupon_rate) / coupon_frequency_per_year`. -/
def periodic_coupon_payment (face_value coupon_rate : ℚ) (freq : ℤ) : ℚ :=
  face_value * coupon_rate / (freq : ℚ)

/-- src/bond_dashboard.py line 71: `ytm / coupon_frequency_per_year`. -/
def periodic_ytm (ytm : ℚ) (freq : ℤ) : ℚ :=
  ytm / (freq : ℚ)

/-- src/bond_dashboard.py lines 74-78: present value of the coupon annuity,
with the undiscounted special case at `periodic_ytm == 0`. -/
def pv_coupons (face_value coupon_rate ytm : ℚ) (freq n : ℤ) : ℚ :=
  if periodic_ytm ytm freq = 0 then
    periodic_coupon_payment face_value coupon_rate freq * (n : ℚ)
  else
    periodic_coupon_payment face_value coupon_rate freq *
      ((1 - (1 + periodic_ytm ytm freq) ^ (-n)) / periodic_ytm ytm freq)

/-- src/bond_dashboard.py line 81:
`face_value / ((1 + periodic_ytm) ** num_periods)`. -/
def pv_face_value (face_value ytm : ℚ) (freq n : ℤ) : ℚ :=
  face_value / (1 + periodic_ytm ytm freq) ^ n

/-- The pricing core shared by src/bond_pricer.py lines 51-103 and
src/bond_dashboard.py lines 44-85.  Branches, in source order:
reject past maturity (printing `pastMaturityMsg`), reject non-positive
frequency (printing `invalidFrequencyMsg`), return `face_value` when
`num_periods <= 0`, and otherwise the discounted-cash-flow sum.  When
`1 + periodic_ytm = 0` the exponentiations `(1 + periodic_ytm) ** (-n)`
and the division by `(1 + periodic_ytm) ** n` raise `ZeroDivisionError`
(`raised`); note `periodic_ytm = 0` never reaches that case. -/
def calculate_bond_price (today maturity : ℤ) (face_value coupon_rate ytm : ℚ)
    (coupon_frequency_per_year : ℤ) : EngineResult :=
  if maturity < today then .validationFailure pastMaturityMsg
  else if coupon_frequency_per_year ≤ 0 then .validationFailure invalidFrequencyMsg
  else if num_periods today maturity coupon_frequency_per_year ≤ 0 then .ok face_value
  else if 1 + periodic_ytm ytm coupon_frequency_per_year = 0 then .raised
  else
    .ok (pv_coupons face_value coupon_rate ytm coupon_frequency_per_year
          (num_periods today maturity coupon_frequency_per_year) +
         pv_face_value face_value ytm coupon_frequency_per_year
          (num_periods today maturity coupon_frequency_per_year))

/-- The Python return value of a call: `some p` for a returned float,
`none` when the function returns `None` (as well as on the uncaught
exception, which produces no value either). -/
def EngineResult.returnedValue : EngineResult → Option ℚ
  | .ok p => some p
  | _ => none

/-- Whether the call took one of the two validation-failure branches. -/
def EngineResult.isFailure : EngineResult → Bool
  | .validationFailure _ => true
  | _ => false

/-- The user-facing output a call performed (`print` in src/bond_pricer.py,
`st.error` in src/bond_dashboard.py): exactly the one error message on a
validation-failure branch, nothing otherwise. -/
def printed_output : EngineResult → List String
  | .validationFailure msg => [msg]
  | _ => []

/-- Applies `g` to a returned price and leaves the other outcomes unchanged
(used to state face-value linearity). -/
def EngineResult.mapPrice (g : ℚ → ℚ) : EngineResult → EngineResult
  | .ok p => .ok (g p)
  | r => r

/-- The closed-form general-branch price exactly as the spec words it:
`periodicCoupon * (1 - (1 + periodicYtm)^(-numPeriods)) / periodicYtm
 + faceValue / (1 + periodicYtm)^numPeriods`
with `periodicCoupon = faceValue * couponRateAnnual / couponFrequencyPerYear`. -/
def specGeneralPrice (face_value coupon_rate ytm : ℚ) (freq n : ℤ) : ℚ :=
  face_value * coupon_rate / (freq : ℚ) *
      (1 - (1 + ytm / (freq : ℚ)) ^ (-n)) / (ytm / (freq : ℚ)) +
    face_value / (1 + ytm / (freq : ℚ)) ^ n

/-- Round half to even (the rounding used by `np.round`). -/
def round_half_even (q : ℚ) : ℤ :=
  if Int.fract q < 1/2 then ⌊q⌋
  else if 1/2 < Int.fract q then ⌊q⌋ + 1
  else if Even ⌊q⌋ then ⌊q⌋ else ⌊q⌋ + 1

/-- `np.round(q, 1)`: round to one decimal place, ties to even. -/
def np_round1 (q : ℚ) : ℚ :=
  (round_half_even (q * 10) : ℚ) / 10

/-- src/bond_dashboard.py line 181:
`np.linspace(max(0.0, ytm_percent - 5), ytm_percent + 5, 50)`.
`np.linspace(a, b, 50)` samples `a + (b - a) * i / 49` for `i = 0, ..., 49`. -/
def ytm_range_raw (y : ℚ) : List ℚ :=
  (List.range 50).map fun i : ℕ =>
    max 0 (y - 5) + ((y + 5) - max 0 (y - 5)) * (i : ℚ) / 49

/-- src/bond_dashboard.py line 182: `np.round(ytm_range, 1)`. -/
def ytm_range (y : ℚ) : List ℚ :=
  (ytm_range_raw y).map np_round1

/-- src/bond_dashboard.py lines 185-191: one engine call per sampled YTM
percentage (passed as `y / 100.0`), a failed point carried as an absent
marker (`np.nan` in the source, `none` here) instead of aborting. -/
def prices_for_ytm_range (today maturity : ℤ) (face_value coupon_rate : ℚ)
    (freq : ℤ) (y : ℚ) : List (Option ℚ) :=
  (ytm_range y).map fun v =>
    (calculate_bond_price today maturity face_value coupon_rate (v / 100) freq).returnedValue

/-! ### Helper lemmas -/

/-- Branch lemma: with validation passed, a positive period count and
`1 + periodic_ytm ≠ 0`, the engine returns the discounted-cash-flow sum. -/
lemma calculate_eq_general (today maturity : ℤ) (F rate ytm : ℚ) (f : ℤ)
    (hm : today ≤ maturity) (hf : 0 < f)
    (hn : 0 < num_periods today maturity f)
    (hr1 : 1 + periodic_ytm ytm f ≠ 0) :
    calculate_bond_price today maturity F rate ytm f =
      .ok (pv_coupons F rate ytm f (num_periods today maturity f) +
           pv_face_value F ytm f (num_periods today maturity f)) := by
  unfold calculate_bond_price
  rw [if_neg (not_lt.mpr hm), if_neg (not_le.mpr hf),
    if_neg (not_le.mpr hn), if_neg hr1]

/-- Branch lemma: with validation passed and `num_periods ≤ 0`, the engine
returns the face value directly. -/
lemma calculate_eq_shortcut (today maturity : ℤ) (F rate ytm : ℚ) (f : ℤ)
    (hm : today ≤ maturity) (hf : 0 < f)
    (hn : num_periods today maturity f ≤ 0) :
    calculate_bond_price today maturity F rate ytm f = .ok F := by
  unfold calculate_bond_price
  rw [if_neg (not_lt.mpr hm), if_neg (not_le.mpr hf), if_pos hn]

/-- With an equal maturity and reference date the period count is zero. -/
lemma num_periods_self (today f : ℤ) : num_periods today today f = 0 := by
  simp [num_periods, years_to_maturity]

/-- Scaling the face value scales the coupon annuity. -/
lemma pv_coupons_smul (k F rate ytm : ℚ) (f n : ℤ) :
    pv_coupons (k * F) rate ytm f n = k * pv_coupons F rate ytm f n := by
  unfold pv_coupons periodic_coupon_payment
  split_ifs with h <;> ring

/-- Scaling the face value scales the discounted principal. -/
lemma pv_face_value_smul (k F ytm : ℚ) (f n : ℤ) :
    pv_face_value (k * F) ytm f n = k * pv_face_value F ytm f n := by
  unfold pv_face_value
  ring

/-- Evaluation rule for concrete period counts, via `Int.ceil_eq_iff`. -/
lemma num_periods_eval (today maturity f z : ℤ)
    (h1 : (z : ℚ) - 1 < ((maturity - today : ℤ) : ℚ) / (365.25 : ℚ) * (f : ℚ))
    (h2 : ((maturity - today : ℤ) : ℚ) / (365.25 : ℚ) * (f : ℚ) ≤ (z : ℚ)) :
    num_periods today maturity f = z := by
  unfold num_periods years_to_maturity
  rw [Int.ceil_eq_iff]
  exact ⟨h1, h2⟩

/-- The annuity factor of the general branch is the finite geometric sum of
the per-period discount factors. -/
lemma geom_sum (r : ℚ) (hr : r ≠ 0) (hx : 1 + r ≠ 0) (n : ℕ) :
    (1 - (1 + r) ^ (-(n : ℤ))) / r =
      ∑ k ∈ Finset.range n, (1 + r) ^ (-((k + 1 : ℕ) : ℤ)) := by
  induction n with
  | zero => simp
  | succ n ih =>
    rw [Finset.sum_range_succ, ← ih]
    push_cast
    have hz : (1 + r) ^ (-((n : ℤ) + 1)) =
        (1 + r) ^ (-(n : ℤ)) * (1 + r)⁻¹ := by
      rw [← zpow_sub_one₀ hx]
      congr 1
      ring
    rw [hz]
    field_simp
    ring

/-- A negative power with exponent at least one is strictly antitone in the
base, for bases above one. -/
lemma zpow_neg_lt_of_lt (x y : ℚ) (hx : 1 < x) (hxy : x < y) (j : ℕ)
    (hj : j ≠ 0) : y ^ (-(j : ℤ)) < x ^ (-(j : ℤ)) := by
  rw [zpow_neg, zpow_neg, zpow_natCast, zpow_natCast]
  exact inv_strictAnti₀ (pow_pos (by linarith) j)
    (pow_lt_pow_left₀ hxy (by linarith) hj)

/-- Strict antitonicity of the general-branch price in the periodic yield:
coupon part weakly decreasing (coupon may be zero), principal part strictly
decreasing. -/
lemma price_strictAnti (F c : ℚ) (N : ℕ) (r1 r2 : ℚ) (hF : 0 < F)
    (hc : 0 ≤ c) (hN : N ≠ 0) (h1 : 0 < r1) (h12 : r1 < r2) :
    c * ((1 - (1 + r2) ^ (-(N : ℤ))) / r2) + F / (1 + r2) ^ (N : ℤ) <
      c * ((1 - (1 + r1) ^ (-(N : ℤ))) / r1) + F / (1 + r1) ^ (N : ℤ) := by
  have hx1 : (1 : ℚ) < 1 + r1 := by linarith
  have hx2 : (1 : ℚ) + r1 < 1 + r2 := by linarith
  have h2 : 0 < r2 := h1.trans h12
  rw [geom_sum r1 (ne_of_gt h1) (ne_of_gt (by linarith)),
    geom_sum r2 (ne_of_gt h2) (ne_of_gt (by linarith))]
  have hdiv : ∀ x : ℚ, F / x ^ (N : ℤ) = F * x ^ (-(N : ℤ)) := fun x => by
    rw [zpow_neg, div_eq_mul_inv]
  rw [hdiv, hdiv]
  apply add_lt_add_of_le_of_lt
  · exact mul_le_mul_of_nonneg_left
      (Finset.sum_le_sum fun k _ =>
        (zpow_neg_lt_of_lt _ _ hx1 hx2 (k + 1) k.succ_ne_zero).le) hc
  · exact mul_lt_mul_of_pos_left (zpow_neg_lt_of_lt _ _ hx1 hx2 N hN) hF

/-- Round-half-even moves a rational by at most one half. -/
lemma round_half_even_bounds (q : ℚ) :
    q - 1/2 ≤ (round_half_even q : ℚ) ∧ (round_half_even q : ℚ) ≤ q + 1/2 := by
  have h := Int.self_sub_floor q
  have h0 := Int.fract_nonneg q
  have h1 := Int.fract_lt_one q
  unfold round_half_even
  split_ifs with ha hb hc <;> constructor <;> push_cast <;> linarith

/-- `np.round` to one decimal moves a rational by at most `1/20`. -/
lemma np_round1_bounds (q : ℚ) :
    q - 1/20 ≤ np_round1 q ∧ np_round1 q ≤ q + 1/20 := by
  obtain ⟨hl, hr⟩ := round_half_even_bounds (q * 10)
  unfold np_round1
  constructor
  · rw [le_div_iff₀ (by norm_num : (0 : ℚ) < 10)]
    linarith
  · rw [div_le_iff₀ (by norm_num : (0 : ℚ) < 10)]
    linarith

/-- Rounding to one decimal preserves nonnegativity. -/
lemma np_round1_nonneg (q : ℚ) (hq : 0 ≤ q) : 0 ≤ np_round1 q := by
  have h : (0 : ℤ) ≤ ⌊q * 10⌋ := Int.floor_nonneg.mpr (by positivity)
  have hQ : (0 : ℚ) ≤ ((⌊q * 10⌋ : ℤ) : ℚ) := by exact_mod_cast h
  unfold np_round1
  apply div_nonneg _ (by norm_num)
  unfold round_half_even
  split_ifs <;> push_cast <;> linarith

/-- The sampled interval has width at least five percentage points. -/
lemma ytm_span_ge (y : ℚ) (hy : 0 ≤ y) :
    5 ≤ (y + 5) - max 0 (y - 5) := by
  rcases max_cases (0 : ℚ) (y - 5) with ⟨hm, _⟩ | ⟨hm, _⟩ <;> rw [hm] <;> linarith

/-- The rounded YTM grid as a single map over `List.range 50`. -/
lemma ytm_range_eq_map (y : ℚ) :
    ytm_range y = (List.range 50).map fun i : ℕ =>
      np_round1 (max 0 (y - 5) + ((y + 5) - max 0 (y - 5)) * (i : ℚ) / 49) := by
  unfold ytm_range ytm_range_raw
  rw [List.map_map]
  rfl

/-- The rounded YTM grid is strictly increasing: the raw spacing is at
least `5/49` of a percentage point, which exceeds twice the maximal
rounding perturbation `1/20`. -/
lemma ytm_range_chain (y : ℚ) (hy : 0 ≤ y) :
    (ytm_range y).Chain' (· < ·) := by
  rw [ytm_range_eq_map, show List.range 50 = List.range (Nat.succ 49) from rfl,
    List.chain'_map, List.chain'_range_succ]
  intro m hm
  rw [show ((Nat.succ m : ℕ) : ℚ) = (m : ℚ) + 1 by push_cast; ring]
  set lo := max 0 (y - 5) with hlo
  set sp := (y + 5) - max 0 (y - 5) with hsp
  have hsp5 : 5 ≤ sp := ytm_span_ge y hy
  have hb1 := np_round1_bounds (lo + sp * (m : ℚ) / 49)
  have hb2 := np_round1_bounds (lo + sp * ((m : ℚ) + 1) / 49)
  have hstep : lo + sp * ((m : ℚ) + 1) / 49 =
      lo + sp * (m : ℚ) / 49 + sp / 49 := by ring
  linarith [hb1.1, hb1.2, hb2.1, hb2.2]

/-- The first sampled point is the rounded lower endpoint
`max 0 (y - 5)`. -/
lemma ytm_range_head (y : ℚ) :
    (ytm_range y).head? = some (np_round1 (max 0 (y - 5))) := by
  rw [ytm_range_eq_map, List.head?_map,
    show List.range 50 = List.range (Nat.succ 49) from rfl,
    List.range_succ_eq_map]
  simp

/-- The last sampled point is the rounded upper endpoint `y + 5`. -/
lemma ytm_range_getLast (y : ℚ) :
    (ytm_range y).getLast? = some (np_round1 (y + 5)) := by
  rw [ytm_range_eq_map, show List.range 50 = List.range (Nat.succ 49) from rfl,
    List.range_succ, List.map_append]
  simp only [List.map_cons, List.map_nil]
  rw [List.getLast?_concat]
  have harg : max 0 (y - 5) + ((y + 5) - max 0 (y - 5)) * ((49 : ℕ) : ℚ) / 49 =
      y + 5 := by push_cast; ring
  rw [harg]

/-- Zipping a list with its image under `g` pairs each element with its
image. -/
lemma zip_self_map {α β : Type} (l : List α) (g : α → β) :
    l.zip (l.map g) = l.map fun a => (a, g a) := by
  induction l with
  | nil => rfl
  | cons x xs ih => simp [ih]

/-! ### Claim theorems -/

/-- C1 (counterexample): an input passing validation with a positive period
count and nonzero periodic yield on which no price is returned: at
`ytm = -1` with annual coupons the periodic yield is `-1`, and the
exponentiation `(1 + periodic_ytm) ** (-num_periods) = 0.0 ** (-2)` raises
an uncaught `ZeroDivisionError` instead of returning the spec's formula
value (the numpy variant yields a non-finite value). -/
theorem claim1_counterexample :
    calculate_bond_price 0 400 1000 (5/100) (-1) 1 = .raised ∧
    periodic_ytm (-1) 1 ≠ 0 ∧ 0 < num_periods 0 400 1 := by
  have hn : num_periods 0 400 1 = 2 :=
    num_periods_eval 0 400 1 2 (by norm_num) (by norm_num)
  refine ⟨?_, by norm_num [periodic_ytm], by rw [hn]; norm_num⟩
  unfold calculate_bond_price
  rw [if_neg (by norm_num), if_neg (by norm_num), if_neg (by rw [hn]; norm_num),
    if_pos (by norm_num [periodic_ytm])]

/-- C1 (amended): for every input passing validation with a positive period
count, a nonzero periodic yield, and additionally `1 + periodic_ytm ≠ 0`
(otherwise the unguarded exponentiation raises), the returned price is
exactly the spec's closed-form
`periodicCoupon * (1 - (1 + periodicYtm)^(-numPeriods)) / periodicYtm
 + faceValue / (1 + periodicYtm)^numPeriods`. -/
theorem claim1_general_formula (today maturity : ℤ) (F rate ytm : ℚ) (f : ℤ)
    (hm : today ≤ maturity) (hf : 0 < f)
    (hn : 0 < num_periods today maturity f)
    (hr : periodic_ytm ytm f ≠ 0) (hr1 : 1 + periodic_ytm ytm f ≠ 0) :
    calculate_bond_price today maturity F rate ytm f =
      .ok (specGeneralPrice F rate ytm f (num_periods today maturity f)) := by
  rw [calculate_eq_general today maturity F rate ytm f hm hf hn hr1]
  congr 1
  unfold pv_coupons
  rw [if_neg hr]
  unfold specGeneralPrice pv_face_value periodic_coupon_payment periodic_ytm
  ring

/-- C1 (witness for the amended claim): semi-annual bond, 366 days to
maturity, 5% coupon, 4% yield. -/
theorem claim1_general_formula_witness :
    calculate_bond_price 0 366 1000 (5/100) (4/100) 2 =
      .ok (specGeneralPrice 1000 (5/100) (4/100) 2 (num_periods 0 366 2)) :=
  claim1_general_formula 0 366 1000 (5/100) (4/100) 2 (by norm_num)
    (by norm_num)
    (by rw [num_periods_eval 0 366 2 3 (by norm_num) (by norm_num)]; norm_num)
    (by norm_num [periodic_ytm]) (by norm_num [periodic_ytm])

/-- C5: holding everything else fixed over valid bond data
(positive face value, nonnegative coupon rate), with a positive period
count and strictly positive periodic yields, a strictly larger annual YTM
yields a strictly smaller price. -/
theorem claim5_price_yield_antitone (today maturity : ℤ)
    (F rate ytm1 ytm2 : ℚ) (f : ℤ)
    (hm : today ≤ maturity) (hf : 0 < f)
    (hn : 0 < num_periods today maturity f)
    (hF : 0 < F) (hrate : 0 ≤ rate)
    (hy1 : 0 < periodic_ytm ytm1 f) (h12 : ytm1 < ytm2) :
    ∃ p1 p2,
      calculate_bond_price today maturity F rate ytm1 f = .ok p1 ∧
      calculate_bond_price today maturity F rate ytm2 f = .ok p2 ∧
      p2 < p1 := by
  have hfQ : (0 : ℚ) < (f : ℚ) := by exact_mod_cast hf
  have hy12 : periodic_ytm ytm1 f < periodic_ytm ytm2 f := by
    unfold periodic_ytm
    exact (div_lt_div_iff_of_pos_right hfQ).mpr h12
  have hy2 : 0 < periodic_ytm ytm2 f := hy1.trans hy12
  have hx1 : 1 + periodic_ytm ytm1 f ≠ 0 := ne_of_gt (by linarith)
  have hx2 : 1 + periodic_ytm ytm2 f ≠ 0 := ne_of_gt (by linarith)
  refine ⟨_, _, calculate_eq_general today maturity F rate ytm1 f hm hf hn hx1,
    calculate_eq_general today maturity F rate ytm2 f hm hf hn hx2, ?_⟩
  unfold pv_coupons pv_face_value
  rw [if_neg (ne_of_gt hy1), if_neg (ne_of_gt hy2)]
  have hNn : (((num_periods today maturity f).toNat : ℕ) : ℤ) =
      num_periods today maturity f := Int.toNat_of_nonneg hn.le
  rw [← hNn]
  exact price_strictAnti F (periodic_coupon_payment F rate f)
    (num_periods today maturity f).toNat
    (periodic_ytm ytm1 f) (periodic_ytm ytm2 f) hF
    (by unfold periodic_coupon_payment
        exact div_nonneg (mul_nonneg hF.le hrate) hfQ.le)
    (by omega) hy1 hy12

/-- C5 (witness): annual zero-coupon bond, 366 days to maturity, yields
10% and 20%. -/
theorem claim5_price_yield_antitone_witness :
    ∃ p1 p2,
      calculate_bond_price 0 366 1000 0 (1/10) 1 = .ok p1 ∧
      calculate_bond_price 0 366 1000 0 (2/10) 1 = .ok p2 ∧
      p2 < p1 :=
  claim5_price_yield_antitone 0 366 1000 0 (1/10) (2/10) 1 (by norm_num)
    (by norm_num)
    (by rw [num_periods_eval 0 366 1 2 (by norm_num) (by norm_num)]; norm_num)
    (by norm_num) le_rfl (by norm_num [periodic_ytm]) (by norm_num)

/-- C2 (counterexample): an otherwise valid input with non-positive face
value is not rejected by the engine; it is priced.  With `today = 0`,
`maturity = 400`, `face_value = -1000`, `coupon_rate = 5%`, `ytm = 0` and
semi-annual coupons the engine returns the price `-1075`. -/
theorem claim2_counterexample :
    (-1000 : ℚ) ≤ 0 ∧
    calculate_bond_price 0 400 (-1000) (5/100) 0 2 = .ok (-1075) := by
  have hn : num_periods 0 400 2 = 3 :=
    num_periods_eval 0 400 2 3 (by norm_num) (by norm_num)
  constructor
  · norm_num
  · rw [calculate_eq_general 0 400 (-1000) (5/100) 0 2 (by norm_num)
      (by norm_num) (by rw [hn]; norm_num) (by norm_num [periodic_ytm]), hn]
    unfold pv_coupons pv_face_value periodic_coupon_payment periodic_ytm
    norm_num

/-- C2 (amended): the engine returns a validation failure iff the maturity
precedes the reference date or the coupon frequency is non-positive — the
face value is never validated by the engine — and every input passing those
two checks with `1 + periodic_ytm ≠ 0` gets a numeric price. -/
theorem claim2_validation (today maturity : ℤ) (F rate ytm : ℚ) (f : ℤ) :
    ((calculate_bond_price today maturity F rate ytm f).isFailure = true ↔
      maturity < today ∨ f ≤ 0) ∧
    (today ≤ maturity → 0 < f → 1 + periodic_ytm ytm f ≠ 0 →
      ∃ p, calculate_bond_price today maturity F rate ytm f = .ok p) := by
  constructor
  · unfold calculate_bond_price
    split_ifs with h1 h2 h3 h4 <;>
      simp_all [EngineResult.isFailure]
  · intro hm hf hr1
    by_cases hn : num_periods today maturity f ≤ 0
    · exact ⟨F, calculate_eq_shortcut today maturity F rate ytm f hm hf hn⟩
    · exact ⟨_, calculate_eq_general today maturity F rate ytm f hm hf
        (lt_of_not_le hn) hr1⟩

/-- C2 (witness for the amended claim at a concrete valid input). -/
theorem claim2_validation_witness :
    ∃ p, calculate_bond_price 0 400 1000 (5/100) (4/100) 2 = .ok p :=
  (claim2_validation 0 400 1000 (5/100) (4/100) 2).2
    (by norm_num) (by norm_num) (by norm_num [periodic_ytm])

/-- C3: for inputs passing validation, a maturity equal to the reference
date — and more generally any input with `num_periods ≤ 0` — makes the
engine return exactly the face value, with no coupon and no discounting. -/
theorem claim3_face_value_shortcut (today maturity : ℤ) (F rate ytm : ℚ)
    (f : ℤ) (hm : today ≤ maturity) (hf : 0 < f) :
    (maturity = today →
      calculate_bond_price today maturity F rate ytm f = .ok F) ∧
    (num_periods today maturity f ≤ 0 →
      calculate_bond_price today maturity F rate ytm f = .ok F) := by
  constructor
  · intro he
    subst he
    exact calculate_eq_shortcut maturity maturity F rate ytm f le_rfl hf
      (le_of_eq (num_periods_self maturity f))
  · exact calculate_eq_shortcut today maturity F rate ytm f hm hf

/-- C3 (witness at `maturity = today`). -/
theorem claim3_face_value_shortcut_witness :
    calculate_bond_price 100 100 1000 (5/100) (4/100) 2 = .ok 1000 :=
  (claim3_face_value_shortcut 100 100 1000 (5/100) (4/100) 2
    le_rfl (by norm_num)).1 rfl

/-- C4: with zero annual YTM and a positive period count, the price is
exactly the undiscounted sum
`faceValue + couponRate * faceValue * numPeriods / frequency`. -/
theorem claim4_zero_ytm (today maturity : ℤ) (F rate : ℚ) (f : ℤ)
    (hm : today ≤ maturity) (hf : 0 < f)
    (hn : 0 < num_periods today maturity f) :
    calculate_bond_price today maturity F rate 0 f =
      .ok (F + rate * F * ((num_periods today maturity f : ℤ) : ℚ) / (f : ℚ)) := by
  have hr1 : 1 + periodic_ytm 0 f ≠ 0 := by
    simp [periodic_ytm]
  rw [calculate_eq_general today maturity F rate 0 f hm hf hn hr1]
  congr 1
  unfold pv_coupons pv_face_value periodic_coupon_payment periodic_ytm
  rw [if_pos (by simp)]
  simp only [zero_div, add_zero, one_zpow]
  ring

/-- C4 (witness): `today = 0`, `maturity = 366`, annual coupons, 5% coupon
rate, zero YTM. -/
theorem claim4_zero_ytm_witness :
    calculate_bond_price 0 366 1000 (5/100) 0 1 =
      .ok (1000 + 5/100 * 1000 * ((num_periods 0 366 1 : ℤ) : ℚ) / ((1 : ℤ) : ℚ)) :=
  claim4_zero_ytm 0 366 1000 (5/100) 1 (by norm_num) (by norm_num)
    (by rw [num_periods_eval 0 366 1 2 (by norm_num) (by norm_num)]; norm_num)

/-- C6 (counterexample): two calls with identical explicit arguments but
made with different system-clock dates return different prices, because
`calculate_bond_price` reads `date.today()` internally instead of taking
the reference date as a parameter. -/
theorem claim6_counterexample :
    calculate_bond_price 0 400 1000 0 1 1 ≠
      calculate_bond_price 300 400 1000 0 1 1 := by
  have hn1 : num_periods 0 400 1 = 2 :=
    num_periods_eval 0 400 1 2 (by norm_num) (by norm_num)
  have hn2 : num_periods 300 400 1 = 1 :=
    num_periods_eval 300 400 1 1 (by norm_num) (by norm_num)
  have e1 : calculate_bond_price 0 400 1000 0 1 1 = .ok 250 := by
    rw [calculate_eq_general 0 400 1000 0 1 1 (by norm_num) (by norm_num)
      (by rw [hn1]; norm_num) (by norm_num [periodic_ytm]), hn1]
    unfold pv_coupons pv_face_value periodic_coupon_payment periodic_ytm
    norm_num
  have e2 : calculate_bond_price 300 400 1000 0 1 1 = .ok 500 := by
    rw [calculate_eq_general 300 400 1000 0 1 1 (by norm_num) (by norm_num)
      (by rw [hn2]; norm_num) (by norm_num [periodic_ytm]), hn2]
    unfold pv_coupons pv_face_value periodic_coupon_payment periodic_ytm
    norm_num
  rw [e1, e2]
  simp

/-- C6 (amended): the engine reads the reference date from the system clock
rather than taking it as an argument; holding the clock value fixed it is a
deterministic pure function, and it depends on the clock date and the
maturity date only through their difference in days (shifting both by the
same number of days leaves the result unchanged). -/
theorem claim6_translation_invariant (today maturity d : ℤ)
    (F rate ytm : ℚ) (f : ℤ) :
    calculate_bond_price (today + d) (maturity + d) F rate ytm f =
      calculate_bond_price today maturity F rate ytm f := by
  unfold calculate_bond_price num_periods years_to_maturity
  rw [show maturity + d - (today + d) = maturity - today by ring]
  simp only [add_lt_add_iff_right]

/-- C7 (counterexample): the engine performs user-facing output itself (a
past-maturity input makes it print an error message), and the two failure
kinds are not distinguishable through the return channel: a past-maturity
failure and an invalid-frequency failure both return `None`. -/
theorem claim7_counterexample :
    printed_output (calculate_bond_price 1 0 1000 (5/100) (4/100) 2) ≠ [] ∧
    (calculate_bond_price 1 0 1000 (5/100) (4/100) 2).returnedValue =
      (calculate_bond_price 0 400 1000 (5/100) (4/100) 0).returnedValue := by
  decide

/-- C7 (amended): validation failures are detected locally and reported by
returning `None` — the same undiscriminated return value for both kinds —
together with an error message the engine itself prints (user-facing
output); the message, not the return value, identifies the kind, and
non-failure calls print nothing. -/
theorem claim7_failure_channel (today maturity : ℤ) (F rate ytm : ℚ) (f : ℤ) :
    (printed_output (calculate_bond_price today maturity F rate ytm f) = [] ↔
      (calculate_bond_price today maturity F rate ytm f).isFailure = false) ∧
    ((calculate_bond_price today maturity F rate ytm f).isFailure = true →
      (calculate_bond_price today maturity F rate ytm f).returnedValue = none) ∧
    (maturity < today →
      calculate_bond_price today maturity F rate ytm f =
        .validationFailure pastMaturityMsg) ∧
    (¬ maturity < today → f ≤ 0 →
      calculate_bond_price today maturity F rate ytm f =
        .validationFailure invalidFrequencyMsg) := by
  unfold calculate_bond_price
  split_ifs with h1 h2 h3 h4 <;>
    simp_all [printed_output, EngineResult.isFailure, EngineResult.returnedValue]

/-- C7 (witness for the amended claim): a concrete past-maturity call takes
the discriminated past-maturity branch. -/
theorem claim7_failure_channel_witness :
    calculate_bond_price 1 0 1000 (5/100) (4/100) 2 =
      .validationFailure pastMaturityMsg :=
  (claim7_failure_channel 1 0 1000 (5/100) (4/100) 2).2.2.1 (by norm_num)

/-- C9: once validation has passed (`today ≤ maturity`, `0 < frequency`),
the period count `⌈days / 365.25 * frequency⌉` is non-positive exactly when
the maturity equals the reference date, so the face-value shortcut fires
for that date and never for a strictly later maturity. -/
theorem claim9_shortcut_iff (today maturity f : ℤ)
    (hm : today ≤ maturity) (hf : 0 < f) :
    num_periods today maturity f ≤ 0 ↔ maturity = today := by
  constructor
  · intro h
    by_contra hne
    have hlt : today < maturity := hm.lt_of_ne (Ne.symm hne)
    have hpos : (0 : ℚ) < years_to_maturity today maturity * (f : ℚ) := by
      apply mul_pos
      · apply div_pos
        · exact_mod_cast (by omega : (0 : ℤ) < maturity - today)
        · norm_num
      · exact_mod_cast hf
    have := Int.ceil_pos.mpr hpos
    unfold num_periods at h
    omega
  · intro he
    rw [he]
    exact le_of_eq (num_periods_self today f)

/-- C9 (witness at `maturity = today`). -/
theorem claim9_shortcut_iff_witness :
    num_periods 0 0 2 ≤ 0 ↔ (0 : ℤ) = 0 :=
  claim9_shortcut_iff 0 0 2 le_rfl (by norm_num)

/-- C10: scaling the face value by any factor `k` scales a returned price
by `k` and leaves failures unchanged, on every branch — the face-value
shortcut branch, the zero-yield branch and the general discounting branch.
(This implies the claim, which asks it only for positive `k` on inputs
passing validation.) -/
theorem claim10_linear_in_face (today maturity : ℤ) (F rate ytm k : ℚ)
    (f : ℤ) :
    calculate_bond_price today maturity (k * F) rate ytm f =
      (calculate_bond_price today maturity F rate ytm f).mapPrice
        (fun p => k * p) := by
  unfold calculate_bond_price
  split_ifs with h1 h2 h3 h4 <;>
    simp [EngineResult.mapPrice, pv_coupons_smul, pv_face_value_smul, mul_add]

/-- C8 (counterexample): the sampled interval is not the symmetric
`[selectedYtm - 5pp, selectedYtm + 5pp]`: for a center YTM of 4 percent the
claimed lower endpoint `4 - 5 = -1` is negative, yet the first (smallest)
sampled value is `0` and every sampled value is nonnegative — the code
clamps the lower endpoint at `max(0.0, ytm_percent - 5)`. -/
theorem claim8_counterexample :
    (ytm_range 4).head? = some 0 ∧ (4 : ℚ) - 5 < 0 ∧
    ∀ v ∈ ytm_range 4, 0 ≤ v := by
  have hmax : max (0 : ℚ) (4 - 5) = 0 := max_eq_left (by norm_num)
  refine ⟨?_, by norm_num, ?_⟩
  · rw [ytm_range_head, hmax]
    norm_num [np_round1, round_half_even, Int.fract_zero, Int.floor_zero]
  · intro v hv
    rw [ytm_range_eq_map] at hv
    obtain ⟨i, _, rfl⟩ := List.mem_map.mp hv
    rw [hmax]
    apply np_round1_nonneg
    positivity

/-- C8 (amended): curve generation produces exactly 50 points (prices
included, failed points carried as absent markers rather than dropped from
the sampling), in strictly ascending YTM order, obtained by rounding 50
evenly spaced values over `[max(0, selectedYtm - 5pp), selectedYtm + 5pp]`
to one decimal percentage point — the interval is symmetric only when
`selectedYtm ≥ 5pp` — and the price stored at each sampled point is the
single-call engine price for that (rounded) YTM. -/
theorem claim8_curve (today maturity : ℤ) (F rate : ℚ) (f : ℤ) (y : ℚ)
    (hy : 0 ≤ y) :
    (ytm_range y).length = 50 ∧
    (prices_for_ytm_range today maturity F rate f y).length = 50 ∧
    (ytm_range y).Chain' (· < ·) ∧
    (ytm_range y).head? = some (np_round1 (max 0 (y - 5))) ∧
    (ytm_range y).getLast? = some (np_round1 (y + 5)) ∧
    ∀ q ∈ (ytm_range y).zip (prices_for_ytm_range today maturity F rate f y),
      q.2 = (calculate_bond_price today maturity F rate (q.1 / 100) f).returnedValue := by
  refine ⟨?_, ?_, ytm_range_chain y hy, ytm_range_head y,
    ytm_range_getLast y, ?_⟩
  · simp [ytm_range, ytm_range_raw]
  · simp [prices_for_ytm_range, ytm_range, ytm_range_raw]
  · intro q hq
    unfold prices_for_ytm_range at hq
    rw [zip_self_map] at hq
    obtain ⟨v, _, rfl⟩ := List.mem_map.mp hq
    rfl

/-- C8 (witness to the amended claim at the dashboard's default inputs). -/
theorem claim8_curve_witness : (ytm_range 4).length = 50 :=
  (claim8_curve 0 400 1000 (5/100) 2 4 (by norm_num)).1

end BondCalc
